import Mathlib

/-!
Verification of the PostgreSQL configuration store
(configuration/postgres/postgres.go) against its specification.

The Go code is shallowly embedded: Go maps are association lists (a list also
records the iteration order the runtime happens to choose, since Go map
iteration order is unspecified), byte-level JSON is represented by an
inductive JSON value type, fallible calls return Except, and panics are
Except errors that a recover boundary turns back into normal results.
Machine integers (time.Duration, an int64 of nanoseconds) are Int.
-/

namespace PgCfg

/-- Single-quote character, used when assembling SQL text. -/
def sq : String := String.singleton (Char.ofNat 39)

/-- Constant from the source: key of the table-name property. -/
def configtablekey : String := "table"

/-- Constant from the source: key of the idle-timeout property. -/
def connMaxIdleTimeKey : String := "connMaxIdleTime"

/-- Constant from the source: key of the connection-string property. -/
def connectionStringKey : String := "connectionString"

/-- Constant from the source: error text for a missing table name. -/
def ErrorMissingTableName : String := "missing postgreSQL configuration table name"

/-- Constant from the source: error text for a missing connection string. -/
def ErrorMissingConnectionString : String := "missing postgreSQL connection string"

/-- Constant from the source: error text for a second Init call. -/
def ErrorAlreadyInitialized : String := "PostgreSQL configuration store already initialized"

/-- Constant from the source: error text for a bad connMaxIdleTime value. -/
def ErrorMissinMaxTimeout : String := "missing PostgreSQL maxTimeout setting in configuration"

/-- Constant from the source: the table-existence query run by Init. -/
def QueryTableExists : String := "SELECT EXISTS (SELECT FROM pg_tables where tablename = $1)"

/-- Constant from the source: the PostgreSQL identifier length limit. -/
def maxIdentifierLength : Nat := 64

/-- Constant from the source: error text for an over-long table name. -/
def ErrorTooLongFieldLength : String := "field name is too long"

/-- Error text built by parseMetadata for a non-ASCII table name. -/
def errInvalidTableName (tbl : String) : String :=
  "invalid table name : " ++ sq ++ tbl ++ sq ++ ". non-ascii characters are not supported"

/-- Error text built by parseMetadata for a table name over 64 bytes. -/
def errTooLongTableName (tbl : String) : String :=
  ErrorTooLongFieldLength ++ " - tableName : " ++ sq ++ tbl ++ sq ++
    ". max allowed field length is 64 "

/-- Go map read m[k]: the first binding of k in the association list
(a Go map has at most one binding per key). -/
def lookupProp (props : List (String × String)) (k : String) : Option String :=
  (props.find? (fun p => p.1 == k)).map (fun p => p.2)

/-- Go map assignment m[k] = v on an allocated map: overwrite the binding of
k if present, append it otherwise. -/
def assocSet {β : Type} (l : List (String × β)) (k : String) (v : β) : List (String × β) :=
  match l with
  | [] => [(k, v)]
  | (k0, v0) :: rest => if k0 == k then (k, v) :: rest else (k0, v0) :: assocSet rest k v

/-- Reads a leading run of decimal digits; fails on an empty run. -/
def readDigits (cs : List Char) : Option (Nat × List Char) :=
  let ds := cs.takeWhile Char.isDigit
  if ds.isEmpty then none
  else some (ds.foldl (fun a c => a * 10 + (c.toNat - 48)) 0, cs.dropWhile Char.isDigit)

/-- Reads a duration unit suffix and yields its scale in nanoseconds. -/
def readUnit : List Char → Option (Int × List Char)
  | 'n' :: 's' :: rest => some (1, rest)
  | 'u' :: 's' :: rest => some (1000, rest)
  | 'm' :: 's' :: rest => some (1000000, rest)
  | 's' :: rest => some (1000000000, rest)
  | 'm' :: rest => some (60000000000, rest)
  | 'h' :: rest => some (3600000000000, rest)
  | _ => none

/-- Accumulates number-unit components of a duration string. -/
def parseComponents : Nat → List Char → Int → Option Int
  | _, [], acc => some acc
  | 0, _ :: _, _ => none
  | fuel + 1, c :: cs, acc =>
    match readDigits (c :: cs) with
    | none => none
    | some (n, rest) =>
      match readUnit rest with
      | none => none
      | some (scale, rest2) => parseComponents fuel rest2 (acc + (n : Int) * scale)

/-- Modelled from the spec: the connMaxIdleTime option must parse as a
duration in the sense of the Go standard-library function time.ParseDuration,
which lives outside this repository. The model accepts an optional sign
followed either by the bare string 0 or by one or more decimal-number and
unit pairs (units ns, us, ms, s, m, h), yielding nanoseconds; anything else
is rejected. Decimal fractions are left out of the model; no claim depends
on them. -/
def parseDuration (s : String) : Option Int :=
  let cs0 := s.toList
  let signed : Bool × List Char :=
    match cs0 with
    | '-' :: rest => (true, rest)
    | '+' :: rest => (false, rest)
    | _ => (false, cs0)
  match signed.2 with
  | [] => none
  | ['0'] => some 0
  | c :: cs =>
    (parseComponents (cs.length + 1) (c :: cs) 0).map
      (fun v => if signed.1 then -v else v)

/-- Structure from the source: the parsed store metadata. maxIdleTime is a
Go time.Duration (int64 nanoseconds); its zero value is 0. -/
structure metadata where
  connectionString : String
  configTable : String
  maxIdleTime : Int
deriving DecidableEq, Repr

/-- Embeds parseMetadata from the source: connectionString must be present
and non-empty; table must be present, non-empty, ASCII-only and at most 64
bytes; connMaxIdleTime, when present and non-empty, must parse as a duration,
and otherwise the field keeps its zero value. A Go lookup with the ok flag
and an emptiness test collapses to comparing the defaulted lookup with the
empty string. -/
def parseMetadata (props : List (String × String)) : Except String metadata :=
  let conn := (lookupProp props connectionStringKey).getD ""
  if conn == "" then .error ErrorMissingConnectionString
  else
    let tbl := (lookupProp props configtablekey).getD ""
    if tbl == "" then .error ErrorMissingTableName
    else if !(tbl.toList.all (fun c => c.toNat < 128)) then
      .error (errInvalidTableName tbl)
    else if tbl.utf8ByteSize > maxIdentifierLength then
      .error (errTooLongTableName tbl)
    else
      let mx := (lookupProp props connMaxIdleTimeKey).getD ""
      if mx == "" then .ok ⟨conn, tbl, 0⟩
      else
        match parseDuration mx with
        | some t => .ok ⟨conn, tbl, t⟩
        | none => .error ErrorMissinMaxTimeout

/-- Structure from configuration.GetRequest: an optional key list and an
optional metadata filter map. The list of pairs records the map together
with the iteration order the Go runtime chooses when ranging over it, since
Go map iteration order is unspecified. -/
structure GetRequest where
  Keys : List String
  Metadata : List (String × String)
deriving DecidableEq, Repr

/-- Structure from configuration.Item: value, version and a string-to-string
metadata map. -/
structure Item where
  Value : String
  Version : String
  Metadata : List (String × String)
deriving DecidableEq, Repr

/-- Renders one metadata filter as the equality clause the source writes. -/
def clauseOf (p : String × String) : String :=
  p.1 ++ "=" ++ sq ++ p.2 ++ sq

/-- Embeds the metadata loop of buildQuery: each clause is written, followed
by an AND separator exactly when the counter j is still below the map size,
that is after every clause but the last. -/
def writeClauses : List (String × String) → String
  | [] => ""
  | [(k, v)] => k ++ "=" ++ sq ++ v ++ sq
  | (k, v) :: p :: rest => k ++ "=" ++ sq ++ v ++ sq ++ " AND " ++ writeClauses (p :: rest)

/-- Embeds buildQuery from the source: with no keys the base query selects
the whole table, otherwise it appends a quoted IN-list built with
strings.Join (String.intercalate); a non-empty metadata map appends an AND
followed by the equality clauses. The error in the returned pair is always
nil. -/
def buildQuery (req : GetRequest) (configTable : String) : Except String String :=
  let query :=
    if req.Keys.length == 0 then
      "SELECT * FROM " ++ configTable
    else
      "SELECT * FROM " ++ configTable ++ " WHERE KEY IN (" ++ sq ++
        String.intercalate (sq ++ "," ++ sq) req.Keys ++ sq ++ ")"
  let query2 :=
    if req.Metadata.length > 0 then query ++ " AND " ++ writeClauses req.Metadata
    else query
  .ok query2

/-- JSON values, the shallow model of what encoding/json produces when it
decodes into an untyped interface value: objects become maps (association
lists, in document order), arrays become lists, numbers are modelled as
integers (no claim depends on fractions). -/
inductive JVal where
  | null
  | bool (b : Bool)
  | num (n : Int)
  | str (s : String)
  | arr (xs : List JVal)
  | obj (fields : List (String × JVal))

/-- Go map m with Item values: alloc is false for the nil map, which a zero
GetResponse value holds. Reads of a nil map succeed (and miss); writes to a
nil map panic. -/
structure GoItemMap where
  alloc : Bool
  entries : List (String × Item)

/-- Structure from configuration.GetResponse: the Items map. Its zero value
holds a nil map. -/
structure GetResponse where
  Items : GoItemMap

/-- Outcome of a Get call: a response, a returned error, or a runtime panic
(which in Go would escape Get rather than be returned). -/
inductive GetOutcome where
  | ok (resp : GetResponse)
  | err (e : String)
  | panicked (msg : String)

/-- Constant modelling database/sql.ErrNoRows, compared against by Get. -/
def sqlErrNoRows : String := "sql: no rows in result set"

/-- Error text modelling what pgx returns when a scan destination is not a
pointer. -/
def scanNonPointerErr : String :=
  "cannot scan into dest 0: destination not a pointer"

/-- Panic text modelling the Go runtime fault for writing to a nil map. -/
def nilMapAssignErr : String := "assignment to entry in nil map"

/-- Error text modelling a json.Unmarshal type error when a metadata column
value is not a JSON string. -/
def jsonUnmarshalTypeErr : String :=
  "json: cannot unmarshal value into Go value of type string"

/-- Error text modelling a json.Unmarshal failure when the metadata column
bytes are not a JSON object of strings. -/
def jsonUnmarshalSyntaxErr : String :=
  "json: cannot unmarshal bytes into Go value of type map of string to string"

/-- One result row: the key, value and version columns and the metadata
column, whose bytes are modelled by their parse (none when the bytes are not
valid JSON). -/
structure Row where
  key : String
  value : String
  version : String
  metadata : Option JVal

/-- Scan destinations as the source passes them. The source passes the local
variable key BY VALUE (it writes key where pgx needs a pointer such as the
ones it passes for item.Value, item.Version and the metadata bytes). -/
inductive ScanDest where
  | strByValue
  | strRef
  | bytesRef

/-- Tells a pointer destination from a value passed by value. -/
def destIsPointer : ScanDest → Bool
  | .strByValue => false
  | .strRef => true
  | .bytesRef => true

/-- The destination list of the rows.Scan call in Get, in source order:
key by value, then pointers to item.Value, item.Version and metadata. -/
def scanDests : List ScanDest := [.strByValue, .strRef, .strRef, .bytesRef]

/-- Models pgx rows.Scan: every destination must be a pointer; a non-pointer
destination fails the scan with an error and assigns nothing. On success the
row columns are assigned through the pointers. -/
def scanRow (dests : List ScanDest) (r : Row) : Except String Row :=
  if dests.all destIsPointer then .ok r else .error scanNonPointerErr

/-- Models json.Unmarshal of the metadata column into map of string to
string: every object value must be a JSON string. -/
def goUnmarshalStringMap : List (String × JVal) → Except String (List (String × String))
  | [] => .ok []
  | (k, .str s) :: rest => (goUnmarshalStringMap rest).map (fun m => (k, s) :: m)
  | (_, _) :: _ => .error jsonUnmarshalTypeErr

/-- Models json.Unmarshal of the raw metadata column bytes into map of
string to string: the bytes must be valid JSON and form an object of
strings. -/
def jsonToStringMap : Option JVal → Except String (List (String × String))
  | some (.obj fields) => goUnmarshalStringMap fields
  | some _ => .error jsonUnmarshalSyntaxErr
  | none => .error jsonUnmarshalSyntaxErr

/-- Go map assignment on the response Items map: panics when the map is nil,
overwrites or appends otherwise. -/
def goItemMapInsert (m : GoItemMap) (k : String) (it : Item) : Except String GoItemMap :=
  if m.alloc then .ok ⟨true, assocSet m.entries k it⟩
  else .error nilMapAssignErr

/-- Embeds the row loop of Get: scan the row, unmarshal the metadata column,
store the item in the response map. A scan or unmarshal failure returns that
error; a nil-map write panics. -/
def getRows : List Row → GetResponse → GetOutcome
  | [], resp => .ok resp
  | r :: rest, resp =>
    match scanRow scanDests r with
    | .error e => .err e
    | .ok scanned =>
      match jsonToStringMap scanned.metadata with
      | .error e => .err e
      | .ok v =>
        match goItemMapInsert resp.Items scanned.key ⟨scanned.value, scanned.version, v⟩ with
        | .error msg => .panicked msg
        | .ok items2 => getRows rest ⟨items2⟩

/-- Embeds Get from the source: build the query, run it (queryResult stands
for the outcome of client.Query), map sql.ErrNoRows to an empty response,
then fold the rows into a zero-valued GetResponse, whose Items map is nil. -/
def get (req : GetRequest) (configTable : String)
    (queryResult : Except String (List Row)) : GetOutcome :=
  match buildQuery req configTable with
  | .error e => .err e
  | .ok _query =>
    match queryResult with
    | .error e => if e == sqlErrNoRows then .ok ⟨⟨false, []⟩⟩ else .err e
    | .ok rows => getRows rows ⟨⟨false, []⟩⟩

/-- Go map read on the subscription stop-channel map (sync.Map.Load). -/
def loadChan (l : List (String × Nat)) (k : String) : Option Nat :=
  (l.find? (fun p => p.1 == k)).map (fun p => p.2)

/-- State of the subscription registry: the sync.Map from stored key to stop
channel, the set of channels whose close has been called, the channels of
every listener goroutine started so far, and an allocator for fresh
channels. -/
structure SubState where
  stopChanMap : List (String × Nat)
  closedChans : List Nat
  started : List Nat
  nextChan : Nat
deriving DecidableEq, Repr

/-- The empty registry of a freshly constructed store. -/
def initialSubState : SubState := ⟨[], [], [], 0⟩

/-- Embeds Subscribe from the source: a fresh identifier is generated by the
caller (uuid.New), the channel key is the string listen followed by the
table name, a previous stop channel found under THAT KEY is closed, a new
stop channel is made, the map stores it UNDER THE IDENTIFIER, and the
listener goroutine is started. -/
def Subscribe (st : SubState) (configTable : String) (subscribeID : String) :
    String × SubState :=
  let key := "listen " ++ configTable
  let closed :=
    match loadChan st.stopChanMap key with
    | some old => st.closedChans.concat old
    | none => st.closedChans
  let stop := st.nextChan
  (subscribeID,
    ⟨assocSet st.stopChanMap subscribeID stop, closed,
      st.started.concat stop, st.nextChan + 1⟩)

/-- Embeds Unsubscribe from the source: when the identifier is registered,
delete its entry and close its stop channel; otherwise do nothing. The call
always returns nil. -/
def Unsubscribe (st : SubState) (id : String) : SubState :=
  match loadChan st.stopChanMap id with
  | some old =>
    ⟨st.stopChanMap.filter (fun p => !(p.1 == id)), st.closedChans.concat old,
      st.started, st.nextChan⟩
  | none => st

/-- Counts the started listener goroutines whose stop channel has not been
closed: the live listeners. -/
def liveListenerCount (st : SubState) : Nat :=
  (st.started.filter (fun c => !(st.closedChans.contains c))).length

/-- Go map read on the unmarshalled notification payload (payload at the
data key). -/
def lookupJ (fields : List (String × JVal)) (k : String) : Option JVal :=
  (fields.find? (fun p => p.1 == k)).map (fun p => p.2)

/-- Panic text modelling a failed interface-to-string type assertion. -/
def panicNotString : String :=
  "interface conversion: interface is not string"

/-- Panic text modelling a failed interface-to-map type assertion. -/
def panicNotStringMap : String :=
  "interface conversion: interface is not map of string to interface"

/-- Models strings.ToLower character by character (the field names matched
are ASCII). -/
def toLowerStr (s : String) : String := String.mk (s.toList.map Char.toLower)

/-- The local variables of handleSubscribedChange while it walks the data
object: key, value, version and the metadata map (allocated with make, so
writes to it never panic). Their zero values are empty. -/
structure RowState where
  key : String
  value : String
  version : String
  m : List (String × String)
deriving DecidableEq, Repr

/-- Models the type assertion value as string: panics (an error here) unless
the dynamic type is string. -/
def asGoString : JVal → Except String String
  | .str s => .ok s
  | _ => .error panicNotString

/-- Models the loop over the asserted metadata map: each value is asserted
to string and stored; a non-string value panics. -/
def readMetaEntries (m : List (String × String)) :
    List (String × JVal) → Except String (List (String × String))
  | [] => .ok m
  | (k, v) :: rest =>
    match v with
    | .str s => readMetaEntries (assocSet m k s) rest
    | _ => .error panicNotString

/-- Models one iteration of the switch over the data object fields: the
lower-cased field name selects which local to assign through a type
assertion; unmatched names are ignored. -/
def procEntry (st : RowState) (k : String) (v : JVal) : Except String RowState :=
  let lk := toLowerStr k
  if lk == "key" then (asGoString v).map (fun s => { st with key := s })
  else if lk == "value" then (asGoString v).map (fun s => { st with value := s })
  else if lk == "version" then (asGoString v).map (fun s => { st with version := s })
  else if lk == "metadata" then
    match v with
    | .obj fields => (readMetaEntries st.m fields).map (fun m2 => { st with m := m2 })
    | _ => .error panicNotStringMap
  else .ok st

/-- Folds procEntry over the data object fields in iteration order. -/
def procEntries (st : RowState) : List (String × JVal) → Except String RowState
  | [] => .ok st
  | (k, v) :: rest =>
    match procEntry st k v with
    | .error e => .error e
    | .ok st2 => procEntries st2 rest

/-- Embeds the reflection walk of handleSubscribedChange: only when the data
value has map kind are its fields visited; any other kind (including an
absent field, whose reflect kind is Invalid) skips the walk and keeps the
zero-valued locals. -/
def extractRow (data : Option JVal) : Except String RowState :=
  match data with
  | some (.obj entries) => procEntries ⟨"", "", "", []⟩ entries
  | _ => .ok ⟨"", "", "", []⟩

/-- Structure from configuration.UpdateEvent: the single-row item map and
the subscription identifier. The item map is built with a map literal, so it
is allocated and holds exactly one entry. -/
structure UpdateEvent where
  Items : List (String × Item)
  ID : String
deriving DecidableEq, Repr

/-- What one notification leads to: dropped before the event is built (the
unmarshal error return), a panic caught by the deferred recover, or the
handler invoked with the built event. -/
inductive HandleOutcome where
  | dropped
  | recovered (msg : String)
  | handled (e : UpdateEvent)
deriving DecidableEq, Repr

/-- Embeds handleSubscribedChange WITHOUT its deferred recover: the payload
argument stands for the json.Unmarshal of msg.Payload into an untyped map
(none when that unmarshal fails, which logs and returns). A panic during the
reflection walk propagates here as an error. When the walk finishes, the
single-entry event is built from the locals and the handler is invoked. -/
def handleSubscribedChangeRaw (payload : Option (List (String × JVal)))
    (id : String) : Except String HandleOutcome :=
  match payload with
  | none => .ok .dropped
  | some fields =>
    match extractRow (lookupJ fields "data") with
    | .error e => .error e
    | .ok st => .ok (.handled ⟨[(st.key, ⟨st.value, st.version, st.m⟩)], id⟩)

/-- Embeds handleSubscribedChange WITH its deferred recover boundary: a
panic is caught and logged and the call returns normally, so the caller
(the listener loop in doSubscribe) always continues. -/
def handleSubscribedChange (payload : Option (List (String × JVal)))
    (id : String) : HandleOutcome :=
  match handleSubscribedChangeRaw payload id with
  | .error e => .recovered e
  | .ok o => o

/-- A metadata field value of the wrong dynamic type: either not a map at
all, or a map holding some value that is not a string. -/
def badMetaVal (v : JVal) : Prop :=
  (∀ fields, v ≠ .obj fields) ∨
    (∃ fields k2 v2, v = .obj fields ∧ (k2, v2) ∈ fields ∧ ∀ s, v2 ≠ .str s)

/-- Environment of Init: the outcomes of the external calls it makes, in
order Connect (which itself pings the fresh pool), the client ping, and the
QueryRow-and-Scan of the table-existence query applied to the query text and
the table name. -/
structure InitEnv where
  connect : Except String Unit
  ping : Except String Unit
  queryRow : String → String → Except String Bool

/-- Embeds Init from the source: fail when already initialized, parse the
metadata, connect, ping, then run the table-existence query; its boolean
result is scanned into a local and DISCARDED, so only a query or scan error
can fail this last step. -/
def InitStore (alreadyInitialized : Bool) (props : List (String × String))
    (env : InitEnv) : Except String Unit :=
  if alreadyInitialized then .error ErrorAlreadyInitialized
  else
    match parseMetadata props with
    | .error e => .error e
    | .ok m =>
      match env.connect with
      | .error e => .error e
      | .ok _ =>
        match env.ping with
        | .error e => .error e
        | .ok _ =>
          match env.queryRow QueryTableExists m.configTable with
          | .error e => .error e
          | .ok _exists => .ok ()

/-- Decides whether the first character list is an initial segment of the
second. -/
def startsWithChars : List Char → List Char → Bool
  | [], _ => true
  | _ :: _, [] => false
  | a :: as, b :: bs => a == b && startsWithChars as bs

/-- Decides whether the needle occurs contiguously anywhere in the
haystack. -/
def hasSubChars (needle : List Char) : List Char → Bool
  | [] => startsWithChars needle []
  | b :: bs => startsWithChars needle (b :: bs) || hasSubChars needle bs

/-- Environment in which every external call of Init succeeds and the
table-existence query reports that the table does NOT exist. -/
def envOkNoTable : InitEnv :=
  ⟨.ok (), .ok (), fun _ _ => .ok false⟩

theorem intercalate_go_append (s : String) :
    ∀ (t : List String) (acc x : String),
      String.intercalate.go (acc ++ x) s t = acc ++ String.intercalate.go x s t := by
  intro t
  induction t with
  | nil => intro acc x; simp [String.intercalate.go]
  | cons y ys ih =>
    intro acc x
    show String.intercalate.go (acc ++ x ++ s ++ y) s ys =
      acc ++ String.intercalate.go (x ++ s ++ y) s ys
    rw [String.append_assoc, String.append_assoc, ← String.append_assoc x s y]
    exact ih acc (x ++ s ++ y)

theorem intercalate_cons_cons (s a b : String) (t : List String) :
    String.intercalate s (a :: b :: t) = a ++ s ++ String.intercalate s (b :: t) := by
  show String.intercalate.go a s (b :: t) = a ++ s ++ String.intercalate.go b s t
  show String.intercalate.go (a ++ s ++ b) s t = _
  rw [show a ++ s ++ b = (a ++ s) ++ b from rfl,
    intercalate_go_append s t (a ++ s) b, String.append_assoc]

theorem writeClauses_eq_intercalate (md : List (String × String)) :
    writeClauses md = String.intercalate " AND " (md.map clauseOf) := by
  induction md with
  | nil => rfl
  | cons a t ih =>
    obtain ⟨k, v⟩ := a
    cases t with
    | nil => rfl
    | cons b t2 =>
      show clauseOf (k, v) ++ " AND " ++ writeClauses (b :: t2) = _
      rw [List.map_cons, List.map_cons, intercalate_cons_cons, ← List.map_cons, ih]

/-- Characterization of buildQuery: no error is ever produced, an empty key
list yields the bare select, a non-empty one the quoted IN-list, and a
non-empty metadata map appends the AND-joined equality clauses. -/
theorem buildQuery_eq (keys : List String) (md : List (String × String)) (t : String) :
    buildQuery ⟨keys, md⟩ t = .ok (
      (if keys = [] then "SELECT * FROM " ++ t
       else "SELECT * FROM " ++ t ++ " WHERE KEY IN (" ++ sq ++
         String.intercalate (sq ++ "," ++ sq) keys ++ sq ++ ")") ++
      (if md = [] then "" else " AND " ++ String.intercalate " AND " (md.map clauseOf))) := by
  unfold buildQuery
  cases keys <;> cases md <;>
    (simp [writeClauses_eq_intercalate, String.append_assoc]; try rfl)

theorem readMetaEntries_err (k2 : String) (v2 : JVal) (hbad : ∀ s, v2 ≠ .str s) :
    ∀ (fields : List (String × JVal)), (k2, v2) ∈ fields →
      ∀ m, readMetaEntries m fields = .error panicNotString := by
  intro fields
  induction fields with
  | nil => intro hmem; cases hmem
  | cons p rest ih =>
    intro hmem m
    obtain ⟨k0, v0⟩ := p
    cases hmem with
    | head =>
      cases h0 : v2 with
      | str s => exact absurd h0 (hbad s)
      | null => rfl
      | bool b => rfl
      | num n => rfl
      | arr xs => rfl
      | obj fs => rfl
    | tail _ hmem2 =>
      cases v0 with
      | str s => exact ih hmem2 (assocSet m k0 s)
      | null => rfl
      | bool b => rfl
      | num n => rfl
      | arr xs => rfl
      | obj fs => rfl

theorem procEntry_metadata_err (st : RowState) (k : String) (v : JVal)
    (hk : toLowerStr k = "metadata") (hbad : badMetaVal v) :
    ∃ e, procEntry st k v = .error e := by
  unfold procEntry
  rw [hk]
  simp only [show (("metadata" == "key") = false) from rfl,
    show (("metadata" == "value") = false) from rfl,
    show (("metadata" == "version") = false) from rfl,
    show (("metadata" == "metadata") = true) from rfl,
    Bool.false_eq_true, if_false, if_true]
  cases hbad with
  | inl h =>
    cases hv : v with
    | obj fs => exact absurd hv (h fs)
    | null => exact ⟨panicNotStringMap, rfl⟩
    | bool b => exact ⟨panicNotStringMap, rfl⟩
    | num n => exact ⟨panicNotStringMap, rfl⟩
    | str s => exact ⟨panicNotStringMap, rfl⟩
    | arr xs => exact ⟨panicNotStringMap, rfl⟩
  | inr h =>
    obtain ⟨fields, k2, v2, hv, hmem, hns⟩ := h
    subst hv
    exact ⟨panicNotString,
      by simp [readMetaEntries_err k2 v2 hns fields hmem st.m, Except.map]⟩

theorem procEntries_metadata_err (k : String) (v : JVal)
    (hk : toLowerStr k = "metadata") (hbad : badMetaVal v) :
    ∀ (entries : List (String × JVal)), (k, v) ∈ entries →
      ∀ st, ∃ e, procEntries st entries = .error e := by
  intro entries
  induction entries with
  | nil => intro hmem; cases hmem
  | cons p rest ih =>
    intro hmem st
    obtain ⟨k0, v0⟩ := p
    cases hmem with
    | head =>
      obtain ⟨e, he⟩ := procEntry_metadata_err st k v hk hbad
      exact ⟨e, by simp [procEntries, he]⟩
    | tail _ hmem2 =>
      cases hpe : procEntry st k0 v0 with
      | error e => exact ⟨e, by simp [procEntries, hpe]⟩
      | ok st2 =>
        obtain ⟨e, he⟩ := ih hmem2 st2
        exact ⟨e, by simp [procEntries, hpe, he]⟩

/-- Claim C1: the claim states that a second Subscribe on the same table
closes the stop signal of the previously registered subscription before
registering the new one, leaving two distinct identifiers but only the
second listener live. The code evaluates otherwise: starting from a fresh
store, two Subscribe calls on table cfg yield the two distinct identifiers,
yet NO stop channel has been closed and BOTH listeners are live, because the
lookup uses the channel key (listen cfg) while entries are stored under the
generated identifiers, so the lookup never finds the prior channel. -/
theorem claimC1_eval :
    (Subscribe initialSubState "cfg" "id-1").1 = "id-1" ∧
    (Subscribe (Subscribe initialSubState "cfg" "id-1").2 "cfg" "id-2").1 = "id-2" ∧
    ("id-1" : String) ≠ "id-2" ∧
    (Subscribe (Subscribe initialSubState "cfg" "id-1").2 "cfg" "id-2").2.closedChans = [] ∧
    liveListenerCount (Subscribe (Subscribe initialSubState "cfg" "id-1").2 "cfg" "id-2").2 = 2 :=
  ⟨rfl, rfl, by decide, rfl, rfl⟩

/-- Claim C2, counterexample: a notification whose payload is the valid JSON
object with single field x (so the nested data field is absent) does NOT
drop the event; the handler IS invoked, with a single-item event under the
empty key. -/
theorem claimC2_counterexample :
    handleSubscribedChange (some [("x", JVal.num 1)]) "s1" =
      .handled ⟨[("", ⟨"", "", []⟩)], "s1"⟩ := rfl

/-- Claim C2 as amended: when the payload unmarshals to a map whose data
field is absent or is not itself a mapping, the reflection walk is skipped
and the handler IS invoked with a single-item event under the empty key with
empty value, version and metadata; only a payload that fails the JSON
unmarshal is dropped without invoking the handler. -/
theorem claimC2_amended (fields : List (String × JVal)) (id : String)
    (h : ∀ entries, lookupJ fields "data" ≠ some (JVal.obj entries)) :
    handleSubscribedChange (some fields) id = .handled ⟨[("", ⟨"", "", []⟩)], id⟩ ∧
    handleSubscribedChange none id = .dropped := by
  refine ⟨?_, rfl⟩
  unfold handleSubscribedChange handleSubscribedChangeRaw
  cases hl : lookupJ fields "data" with
  | none => simp [extractRow]
  | some j =>
    cases j with
    | obj entries => exact absurd hl (h entries)
    | null => simp [extractRow]
    | bool b => simp [extractRow]
    | num n => simp [extractRow]
    | str s => simp [extractRow]
    | arr xs => simp [extractRow]

/-- Claim C2 witness: at the concrete payload with single field x the
amended claim applies, the data lookup finding nothing. -/
theorem claimC2_witness :
    handleSubscribedChange (some [("x", JVal.num 1)]) "s2" =
      .handled ⟨[("", ⟨"", "", []⟩)], "s2"⟩ ∧
    handleSubscribedChange none "s2" = .dropped :=
  claimC2_amended [("x", JVal.num 1)] "s2"
    (fun entries hc => by simp [lookupJ] at hc)

/-- Claim C3: the claim states that a row whose metadata column holds a JSON
object of string pairs round-trips into the response items. The code
evaluates otherwise: on the single row (k, v, 1) with metadata owner x, Get
returns the scan error, because rows.Scan receives the key destination by
value rather than by pointer, so the scan of every row fails and no item is
ever decoded (and the response Items map, never allocated, could not be
written anyway). -/
theorem claimC3_eval :
    get ⟨["k"], []⟩ "cfg"
      (.ok [⟨"k", "v", "1", some (.obj [("owner", .str "x")])⟩]) =
      .err scanNonPointerErr := rfl

/-- Claim C4: a data mapping holding a metadata field of the wrong dynamic
type (not a mapping, or a mapping with a non-string value) makes the
reflection walk panic: without the recover boundary the panic would escape
the payload handler, and with the deferred recover the call returns
normally with the panic caught, the handler never being invoked for that
notification, so the listener loop in doSubscribe continues. -/
theorem claimC4_panic_recovered (fields entries : List (String × JVal))
    (id k : String) (v : JVal)
    (hdata : lookupJ fields "data" = some (.obj entries))
    (hk : toLowerStr k = "metadata") (hmem : (k, v) ∈ entries)
    (hbad : badMetaVal v) :
    (∃ e, handleSubscribedChangeRaw (some fields) id = .error e) ∧
    (∃ e, handleSubscribedChange (some fields) id = .recovered e) ∧
    (∀ ev, handleSubscribedChange (some fields) id ≠ .handled ev) := by
  obtain ⟨e, he⟩ := procEntries_metadata_err k v hk hbad entries hmem ⟨"", "", "", []⟩
  have hraw : handleSubscribedChangeRaw (some fields) id = .error e := by
    unfold handleSubscribedChangeRaw
    simp [hdata, extractRow, he]
  refine ⟨⟨e, hraw⟩, ⟨e, ?_⟩, fun ev hc => ?_⟩
  · unfold handleSubscribedChange
    rw [hraw]
  · unfold handleSubscribedChange at hc
    rw [hraw] at hc
    cases hc

/-- Claim C4 witness: the concrete payload whose data object carries a
numeric metadata field panics and is recovered. -/
theorem claimC4_witness :
    (∃ e, handleSubscribedChangeRaw
      (some [("data", JVal.obj [("metadata", JVal.num 3)])]) "s3" = .error e) ∧
    (∃ e, handleSubscribedChange
      (some [("data", JVal.obj [("metadata", JVal.num 3)])]) "s3" = .recovered e) ∧
    (∀ ev, handleSubscribedChange
      (some [("data", JVal.obj [("metadata", JVal.num 3)])]) "s3" ≠ .handled ev) :=
  claimC4_panic_recovered _ [("metadata", JVal.num 3)] "s3" "metadata" (JVal.num 3)
    rfl (by decide) (List.Mem.head _) (Or.inl (fun _ h => nomatch h))

/-- Claim C5, counterexample: with a valid connection string and table name
and connMaxIdleTime absent, parsing succeeds but the idle-timeout duration
is exactly the zero duration, not a component-wide default. -/
theorem claimC5_counterexample :
    parseMetadata [("connectionString", "c"), ("table", "t")] = .ok ⟨"c", "t", 0⟩ := rfl

/-- Claim C5 as amended: with a valid connection string and table name, an
absent (or empty) connMaxIdleTime leaves the idle timeout at the zero
duration, no default being applied; a present non-empty value that fails to
parse as a duration fails the whole parse with the invalid-max-timeout
error. -/
theorem claimC5_amended (props : List (String × String)) (cs tbl : String)
    (hcs : lookupProp props connectionStringKey = some cs) (hcs2 : cs ≠ "")
    (htbl : lookupProp props configtablekey = some tbl) (htbl2 : tbl ≠ "")
    (hascii : tbl.toList.all (fun c => c.toNat < 128) = true)
    (hlen : tbl.utf8ByteSize ≤ maxIdentifierLength) :
    ((lookupProp props connMaxIdleTimeKey).getD "" = "" →
      parseMetadata props = .ok ⟨cs, tbl, 0⟩) ∧
    (∀ s, lookupProp props connMaxIdleTimeKey = some s → s ≠ "" →
      parseDuration s = none →
      parseMetadata props = .error ErrorMissinMaxTimeout) := by
  unfold parseMetadata
  rw [hcs, htbl]
  simp only [Option.getD_some]
  rw [if_neg (by simpa using hcs2), if_neg (by simpa using htbl2),
    if_neg (by simpa [String.toList] using hascii), if_neg (Nat.not_lt.mpr hlen)]
  constructor
  · intro habs
    rw [habs]
    simp
  · intro s hs hs2 hpd
    rw [hs]
    simp only [Option.getD_some]
    rw [if_neg (by simpa using hs2), hpd]

/-- Claim C5 witness: concrete option maps exercising the amended claim, the
unparsable branch being taken at the duration string abc. -/
theorem claimC5_witness :
    parseMetadata [("connectionString", "c"), ("table", "t"), ("connMaxIdleTime", "abc")] =
      .error ErrorMissinMaxTimeout :=
  (claimC5_amended [("connectionString", "c"), ("table", "t"), ("connMaxIdleTime", "abc")]
    "c" "t" rfl (by decide) rfl (by decide) (by decide) (by decide)).2
    "abc" rfl (by decide) rfl

/-- Claim C6: for every key list, metadata map and table name, buildQuery
returns a query string and never an error; with no keys and no metadata the
query is exactly the bare select of the table, with keys present it appends
the comma-joined quoted IN-list, and with metadata present it appends the
equality clauses joined by AND. -/
theorem claimC6_buildQuery (keys : List String) (md : List (String × String)) (t : String) :
    buildQuery ⟨keys, md⟩ t = .ok (
      (if keys = [] then "SELECT * FROM " ++ t
       else "SELECT * FROM " ++ t ++ " WHERE KEY IN (" ++ sq ++
         String.intercalate (sq ++ "," ++ sq) keys ++ sq ++ ")") ++
      (if md = [] then "" else " AND " ++ String.intercalate " AND " (md.map clauseOf))) :=
  buildQuery_eq keys md t

/-- Claim C7: when the query execution succeeds with no rows (and also when
it reports the no-rows sentinel error), Get returns a nil error and a
response whose Items map is empty. -/
theorem claimC7_empty_not_error (keys : List String) (md : List (String × String))
    (t : String) :
    get ⟨keys, md⟩ t (.ok []) = .ok ⟨⟨false, []⟩⟩ ∧
    get ⟨keys, md⟩ t (.error sqlErrNoRows) = .ok ⟨⟨false, []⟩⟩ :=
  ⟨rfl, rfl⟩

/-- Claim C8, counterexample: the same two-entry metadata mapping, iterated
in the two orders the runtime may choose (Go map iteration order is
unspecified), yields two different query strings, so repeated calls with
the same input are not guaranteed identical strings. -/
theorem claimC8_counterexample :
    List.Perm [(("a" : String), ("1" : String)), ("b", "2")] [("b", "2"), ("a", "1")] ∧
    buildQuery ⟨[], [("a", "1"), ("b", "2")]⟩ "cfg" =
      .ok ("SELECT * FROM cfg AND a=" ++ sq ++ "1" ++ sq ++ " AND b=" ++ sq ++ "2" ++ sq) ∧
    buildQuery ⟨[], [("b", "2"), ("a", "1")]⟩ "cfg" =
      .ok ("SELECT * FROM cfg AND b=" ++ sq ++ "2" ++ sq ++ " AND a=" ++ sq ++ "1" ++ sq) ∧
    ("SELECT * FROM cfg AND a=" ++ sq ++ "1" ++ sq ++ " AND b=" ++ sq ++ "2" ++ sq) ≠
      ("SELECT * FROM cfg AND b=" ++ sq ++ "2" ++ sq ++ " AND a=" ++ sq ++ "1" ++ sq) :=
  ⟨List.Perm.swap _ _ _, rfl, rfl, by decide⟩

/-- Claim C8 as amended: buildQuery is a pure function of the iteration
order the runtime chooses, so two calls iterating the metadata mapping in
the same order give the identical string; for two iteration orders of the
same mapping the produced metadata clauses agree up to permutation, but not
necessarily in order, so identical full strings are not guaranteed. -/
theorem claimC8_amended (keys : List String) (t : String)
    (md1 md2 : List (String × String)) (h : md1.Perm md2) :
    (md1.map clauseOf).Perm (md2.map clauseOf) ∧
    (md1 = md2 → buildQuery ⟨keys, md1⟩ t = buildQuery ⟨keys, md2⟩ t) :=
  ⟨h.map clauseOf, fun he => by rw [he]⟩

/-- Claim C8 witness: the amended claim applied to the two iteration orders
of the two-entry mapping. -/
theorem claimC8_witness :
    (([(("a" : String), ("1" : String)), ("b", "2")]).map clauseOf).Perm
      (([(("b" : String), ("2" : String)), ("a", "1")]).map clauseOf) ∧
    ([(("a" : String), ("1" : String)), ("b", "2")] = [("b", "2"), ("a", "1")] →
      buildQuery ⟨[], [("a", "1"), ("b", "2")]⟩ "cfg" =
        buildQuery ⟨[], [("b", "2"), ("a", "1")]⟩ "cfg") :=
  claimC8_amended [] "cfg" [("a", "1"), ("b", "2")] [("b", "2"), ("a", "1")]
    (List.Perm.swap _ _ _)

/-- Claim C9: once metadata parsing, connection and ping have succeeded,
Init runs the table-existence query against pg_tables and discards the
scanned boolean: any query result, in particular false (the configured
table does not exist), lets Init succeed, and only a query or scan error is
returned. -/
theorem claimC9_init (props : List (String × String)) (env : InitEnv) (m : metadata)
    (hm : parseMetadata props = .ok m) (hc : env.connect = .ok ())
    (hp : env.ping = .ok ()) :
    (∀ b, env.queryRow QueryTableExists m.configTable = .ok b →
      InitStore false props env = .ok ()) ∧
    (∀ e, env.queryRow QueryTableExists m.configTable = .error e →
      InitStore false props env = .error e) := by
  constructor
  · intro b hb
    unfold InitStore
    simp [hm, hc, hp, hb]
  · intro e he
    unfold InitStore
    simp [hm, hc, hp, he]

/-- Claim C9 witness: with valid options and an environment whose
table-existence query answers false, Init succeeds. -/
theorem claimC9_witness :
    InitStore false [("connectionString", "c"), ("table", "t")] envOkNoTable = .ok () :=
  (claimC9_init [("connectionString", "c"), ("table", "t")] envOkNoTable
    ⟨"c", "t", 0⟩ rfl rfl rfl).1 false rfl

/-- Claim C10: with an empty key list and a non-empty metadata mapping the
built query is the bare select of the table directly followed by an AND and
the equality clauses, and (checked on the concrete spec example) the result
contains no WHERE keyword. -/
theorem claimC10_no_where (t : String) (md : List (String × String)) (h : md ≠ []) :
    buildQuery ⟨[], md⟩ t =
      .ok ("SELECT * FROM " ++ t ++ " AND " ++
        String.intercalate " AND " (md.map clauseOf)) ∧
    hasSubChars ("WHERE".toList)
      (((buildQuery ⟨[], [("env", "prod")]⟩ "cfg").toOption.getD "").toList) = false := by
  constructor
  · rw [buildQuery_eq [] md t, if_pos rfl, if_neg h]
    simp [String.append_assoc]
  · decide

/-- Claim C10 witness: the concrete query for the single filter env prod. -/
theorem claimC10_witness :
    buildQuery ⟨[], [("env", "prod")]⟩ "cfg" =
      .ok ("SELECT * FROM " ++ "cfg" ++ " AND " ++
        String.intercalate " AND " ([(("env" : String), ("prod" : String))].map clauseOf)) ∧
    hasSubChars ("WHERE".toList)
      (((buildQuery ⟨[], [("env", "prod")]⟩ "cfg").toOption.getD "").toList) = false :=
  claimC10_no_where "cfg" [("env", "prod")] (by decide)

end PgCfg
